import Mathlib

/-!
# Verification of the blueos-ppp PPP-daemon supervisor and settings store

A shallow embedding of the three Python modules of the repository:

* `app/ppp_process.py` — the `PPPDaemon` class, whose background thread
  `child_task` reconciles the shared `is_enabled` / `do_shutdown` flags
  against a `subprocess.Popen` handle;
* `app/settings.py` — the JSON settings store (`get_settings`,
  `save_settings` and the per-field `get_pppd_*` / `update_pppd_*`
  helpers);
* `app/main.py` — the FastAPI control layer (module-level `ppp_running`
  flag, `start_ppp_internal`, `stop_ppp`, `get_ppp_status`,
  `save_ppp_settings`).

Stateful code is modelled by explicit state passing.  A Python statement
that can raise an uncaught exception is modelled with `Except`: an
`Except.error` result of a loop body means the exception escapes the body
and terminates the thread running it.  File-system effects are modelled by
a `FileState` value threaded through the settings operations; whether the
OS accepts a write is a boolean parameter `w` of each operation that may
write.
-/

namespace PPP

/-! ## `app/ppp_process.py` — the process supervisor -/

/-- `PPPD_EXECUTABLE = Path("/ppp_ws/ppp/pppd/pppd")` from `ppp_process.py`. -/
def PPPD_EXECUTABLE : String := "/ppp_ws/ppp/pppd/pppd"

/-- The configuration snapshot held by a `PPPDaemon` instance: the
`device`, `baudrate`, `local` and `remote` attributes set in `__init__`
(`local` is a Lean keyword, hence `localAddr` / `remoteAddr`). -/
structure DConfig where
  device : String
  baudrate : Nat
  localAddr : String
  remoteAddr : String
  deriving DecidableEq, Repr

/-- An OS process as the supervisor sees it: the argument list it was
spawned with and whether it is still alive.  `alive := false` models a
process that has exited (externally or after termination). -/
structure Proc where
  args : List String
  alive : Bool
  deriving DecidableEq, Repr

/-- The state of one `PPPDaemon`: the configuration attributes, the two
flags shared with caller threads (`is_enabled`, `do_shutdown`, lines
24–25) and the loop-local variables of `child_task` (`is_running`,
`pppd_process`, lines 37–39). -/
structure DaemonState where
  cfg : DConfig
  is_enabled : Bool
  do_shutdown : Bool
  is_running : Bool
  pppd_process : Option Proc
  deriving DecidableEq, Repr

/-- Environment of one loop iteration: whether `subprocess.Popen` raises
(missing or unexecutable binary), and whether the live process (if any)
exits on its own during this tick (observed by the final `poll()`). -/
structure TickEnv where
  spawnFails : Bool
  extExit : Bool
  deriving DecidableEq, Repr

/-- The fixed mode flags of the `args` list built in `child_task`
(lines 54–60), in source order. -/
def pppdModeFlags : List String :=
  ["debug", "noauth", "nodetach", "crtscts", "local", "proxyarp", "ktune"]

/-- The full `args` list of `subprocess.Popen(args)` (lines 49–61):
executable, `f"{self.device}"`, `f"{self.baudrate}"`,
`f"{self.local}:{self.remote}"`, then the fixed mode flags. -/
def pppdArgs (c : DConfig) : List String :=
  PPPD_EXECUTABLE :: c.device :: toString c.baudrate ::
    (c.localAddr ++ ":" ++ c.remoteAddr) :: pppdModeFlags

/-- One iteration of the `while` body of `child_task` (lines 42–83),
after the flags have been read under the lock.  The three branches in
source order:

1. lines 46–66: `if is_enabled and not is_running and pppd_process is
   None`: build `args` and call `subprocess.Popen(args)`.  The call is
   **not** inside any `try`, so if it raises the exception escapes the
   body (`Except.error ()`); otherwise the handle is recorded and
   `is_running = True`.
2. lines 68–77: `if not is_enabled and is_running and pppd_process is not
   None`: `terminate()`, grace, `poll()`, possibly `kill()`; in every
   outcome `pppd_process = None` and `is_running = False` afterwards.
3. lines 79–81: `if pppd_process is not None: pppd_process.poll()` —
   `poll` only reaps/observes; the only state it changes is the OS
   process's liveness as seen through `returncode`.  An external exit is
   modelled by marking the held process dead. -/
def tickBody (env : TickEnv) (s : DaemonState) : Except Unit DaemonState :=
  let step1 : Except Unit DaemonState :=
    if s.is_enabled && !s.is_running && s.pppd_process.isNone then
      if env.spawnFails then
        Except.error ()
      else
        Except.ok { s with
          pppd_process := some ⟨pppdArgs s.cfg, true⟩
          is_running := true }
    else
      Except.ok s
  match step1 with
  | Except.error e => Except.error e
  | Except.ok s1 =>
    let s2 :=
      if !s1.is_enabled && s1.is_running && s1.pppd_process.isSome then
        { s1 with pppd_process := none, is_running := false }
      else
        s1
    let s3 :=
      if s2.pppd_process.isSome && env.extExit then
        { s2 with pppd_process := s2.pppd_process.map fun p => ⟨p.args, false⟩ }
      else
        s2
    Except.ok s3

/-- The `while not do_shutdown` loop of `child_task`, run for at most
`fuel` iterations under a fixed environment (the shared flags live in the
state and are not written by the loop itself; `env` is fixed for
simplicity of statement).  The loop reads both flags at the top of each
iteration, runs the body, and then re-tests the `do_shutdown` value it
read.  Results: `Except.error ()` — an exception escaped the body and the
thread died; `Except.ok none` — still looping after `fuel` iterations;
`Except.ok (some s)` — the loop exited cooperatively in state `s`. -/
def runLoop (env : TickEnv) : Nat → DaemonState → Except Unit (Option DaemonState)
  | 0, _ => Except.ok none
  | fuel + 1, s =>
    match tickBody env s with
    | Except.error e => Except.error e
    | Except.ok s' =>
      if s.do_shutdown then Except.ok (some s') else runLoop env fuel s'

/-- The state right after `PPPDaemon.__init__` (flags false, lines 24–25)
at the first iteration of `child_task` (locals initialised at lines
37–39). -/
def initState (c : DConfig) : DaemonState :=
  { cfg := c, is_enabled := false, do_shutdown := false
    is_running := false, pppd_process := none }

/-- `PPPDaemon.start` (lines 85–88): sets `is_enabled = True` under the
lock. -/
def startDaemon (s : DaemonState) : DaemonState :=
  { s with is_enabled := true }

/-- `PPPDaemon.stop` (lines 90–93): sets `is_enabled = False` under the
lock. -/
def stopDaemon (s : DaemonState) : DaemonState :=
  { s with is_enabled := false }

/-- The flag writes of `PPPDaemon.shutdown` (lines 95–99):
`is_enabled = False` and `do_shutdown = True` under the lock.  The
subsequent `self.thread.join()` is modelled by running `runLoop` from the
resulting state. -/
def shutdownFlags (s : DaemonState) : DaemonState :=
  { s with is_enabled := false, do_shutdown := true }

/-- The loop invariant relating the two loop-local variables of
`child_task`: `is_running` is true exactly when `pppd_process` is
non-null. -/
def runInv (s : DaemonState) : Prop :=
  s.is_running = s.pppd_process.isSome

instance (s : DaemonState) : Decidable (runInv s) := by
  unfold runInv; infer_instance

/-- The method names defined on the `PPPDaemon` class in
`ppp_process.py`. -/
def PPPDaemon_methods : List String :=
  ["__init__", "__del__", "child_task", "start", "stop", "shutdown"]

/-- The default configuration values of the repository (used as a concrete
test configuration). -/
def cfg0 : DConfig :=
  { device := "/dev/ttyS0", baudrate := 921600
    localAddr := "192.168.1.205", remoteAddr := "192.168.1.200" }

/-- A process that has already exited (e.g. crashed) while its handle is
still held. -/
def deadProc : Proc := ⟨pppdArgs cfg0, false⟩

/-- A daemon state in which the supervised process has exited on its own
while `is_enabled` remains true: the loop still holds the dead handle and
`is_running` is still true. -/
def sCrashed : DaemonState :=
  { cfg := cfg0, is_enabled := true, do_shutdown := false
    is_running := true, pppd_process := some deadProc }

/-- A quiet environment: spawning works, no external exit this tick. -/
def env0 : TickEnv := { spawnFails := false, extExit := false }

/-- An idle-but-enabled state: `is_enabled` true, nothing running. -/
def sIdleEnabled : DaemonState :=
  { cfg := cfg0, is_enabled := true, do_shutdown := false
    is_running := false, pppd_process := none }

/-- A state with a live supervised process. -/
def sRunning : DaemonState :=
  { cfg := cfg0, is_enabled := true, do_shutdown := false
    is_running := true, pppd_process := some ⟨pppdArgs cfg0, true⟩ }

/-! ## `app/settings.py` — the settings store -/

/-- A scalar JSON value as stored in the settings document: a string, an
integer or a boolean. -/
inductive Scalar where
  | s (v : String)
  | i (v : Int)
  | b (v : Bool)
  deriving DecidableEq, Repr

/-- A section of the settings document: a Python dict from field names to
scalar values, modelled as an association list in insertion order
(a Python dict never holds a key twice). -/
abbrev Sect := List (String × Scalar)

/-- The whole settings document: a dict from section names to sections. -/
abbrev SettingsDoc := List (String × Sect)

/-- Python membership `k in m` on a dict. -/
def dhas {α : Type} : List (String × α) → String → Bool
  | [], _ => false
  | kv :: m, k => kv.1 == k || dhas m k

/-- Python `m.get(k, d)`: the value at `k`, or the default `d` when the
key is missing. -/
def dget {α : Type} : List (String × α) → String → α → α
  | [], _, d => d
  | kv :: m, k, d => if kv.1 == k then kv.2 else dget m k d

/-- Python assignment `m[k] = v` on a dict: replace the value of an
existing key in place, otherwise append the new binding. -/
def dset {α : Type} : List (String × α) → String → α → List (String × α)
  | [], k, v => [(k, v)]
  | kv :: m, k, v => if kv.1 == k then (k, v) :: m else kv :: dset m k v

/-- `DEFAULT_SETTINGS` (settings.py lines 21–35), transcribed literally.
Note that the `baudrate` entries are JSON **strings** in the source. -/
def DEFAULT_SETTINGS : SettingsDoc :=
  [("last_used",
    [("device", Scalar.s "/dev/ttyS0"),
     ("baudrate", Scalar.s "921600"),
     ("local_ip_address", Scalar.s "192.168.1.205"),
     ("remote_ip_address", Scalar.s "192.168.1.200")]),
   ("pppd",
    [("enabled", Scalar.b false),
     ("device", Scalar.s "/dev/ttyS0"),
     ("baudrate", Scalar.s "921600"),
     ("local_ip_address", Scalar.s "192.168.1.205"),
     ("remote_ip_address", Scalar.s "192.168.1.200")])]

/-- The observable state of the settings file on disk: absent, present
but unparsable, present but unreadable (any I/O error on open or read),
or a well-formed document. -/
inductive FileState where
  | absent
  | corrupt
  | ioError
  | valid (doc : SettingsDoc)
  deriving DecidableEq, Repr

/-- `SETTINGS_FILE.exists()`. -/
def fexists : FileState → Bool
  | FileState.absent => false
  | _ => true

/-- `open(SETTINGS_FILE, "r")` followed by `json.load(f)`: raises on a
missing file, on unparsable contents, or on an I/O error. -/
def open_and_load : FileState → Except String SettingsDoc
  | FileState.absent => Except.error "FileNotFoundError"
  | FileState.corrupt => Except.error "JSONDecodeError"
  | FileState.ioError => Except.error "OSError"
  | FileState.valid doc => Except.ok doc

/-- `json.dump(settings, f)` after `open(SETTINGS_FILE, "w")`: the write
succeeds iff the OS accepts it (parameter `w`); on failure the OS raises
and the file is modelled as left unchanged. -/
def fwrite (w : Bool) (doc : SettingsDoc) (_fs : FileState) :
    Except String FileState :=
  if w then Except.ok (FileState.valid doc) else Except.error "OSError"

/-- `save_settings` (settings.py lines 69–83): performs the write inside
`try`, logging and swallowing any failure; it returns `None` either way,
so its only observable effect is the file state. -/
def save_settings (w : Bool) (doc : SettingsDoc) (fs : FileState) :
    FileState :=
  match fwrite w doc fs with
  | Except.ok fs' => fs'
  | Except.error _ => fs

/-- `get_settings` (settings.py lines 39–65): inside `try`, if the file
does not exist, save the defaults and return them; otherwise open and
parse the file and return the parsed document.  On any exception, attempt
to save the defaults (`save_settings` itself never raises) and return
the defaults. -/
def get_settings (w : Bool) (fs : FileState) :
    Except String (SettingsDoc × FileState) :=
  let body : Except String (SettingsDoc × FileState) :=
    if !(fexists fs) then
      Except.ok (DEFAULT_SETTINGS, save_settings w DEFAULT_SETTINGS fs)
    else
      match open_and_load fs with
      | Except.ok doc => Except.ok (doc, fs)
      | Except.error e => Except.error e
  match body with
  | Except.ok p => Except.ok p
  | Except.error _ =>
    Except.ok (DEFAULT_SETTINGS, save_settings w DEFAULT_SETTINGS fs)

/-- The shared body of the five `update_pppd_*` helpers: ensure the
`pppd` section exists (`if "pppd" not in settings: settings["pppd"] =
{}`, where the braces denote an empty dict) and assign
`settings["pppd"][field] = value`. -/
def assign_pppd (doc : SettingsDoc) (field : String) (v : Scalar) :
    SettingsDoc :=
  let doc1 := if dhas doc "pppd" then doc else dset doc "pppd" []
  dset doc1 "pppd" (dset (dget doc1 "pppd" []) field v)

/-- `get_pppd_device` (lines 148–156):
`get_settings().get("pppd", {}).get("device",
DEFAULT_SETTINGS["pppd"]["device"])`.  The literal index into
`DEFAULT_SETTINGS` is modelled by `dget` with an unreachable junk
default, since both keys are present in the closed literal. -/
def get_pppd_device (w : Bool) (fs : FileState) :
    Except String (Scalar × FileState) :=
  match get_settings w fs with
  | Except.ok (doc, fs1) =>
    Except.ok (dget (dget doc "pppd" []) "device"
      (dget (dget DEFAULT_SETTINGS "pppd" []) "device" (Scalar.s "")), fs1)
  | Except.error e => Except.error e

/-- `update_pppd_device` (lines 160–183): `try` around
`get_settings`, the section-ensuring assignment and `save_settings`,
returning `True`; `except` returns `False`. -/
def update_pppd_device (w : Bool) (device : String) (fs : FileState) :
    Bool × FileState :=
  match get_settings w fs with
  | Except.ok (doc, fs1) =>
    (true, save_settings w (assign_pppd doc "device" (Scalar.s device)) fs1)
  | Except.error _ => (false, fs)

/-- `get_pppd_baudrate` (lines 187–197): same shape as
`get_pppd_device`, for the `baudrate` field. -/
def get_pppd_baudrate (w : Bool) (fs : FileState) :
    Except String (Scalar × FileState) :=
  match get_settings w fs with
  | Except.ok (doc, fs1) =>
    Except.ok (dget (dget doc "pppd" []) "baudrate"
      (dget (dget DEFAULT_SETTINGS "pppd" []) "baudrate" (Scalar.s "")), fs1)
  | Except.error e => Except.error e

/-- `update_pppd_baudrate` (lines 201–224); the endpoint passes the baud
rate as an integer, so the stored scalar is `Scalar.i`. -/
def update_pppd_baudrate (w : Bool) (baudrate : Int) (fs : FileState) :
    Bool × FileState :=
  match get_settings w fs with
  | Except.ok (doc, fs1) =>
    (true, save_settings w (assign_pppd doc "baudrate" (Scalar.i baudrate)) fs1)
  | Except.error _ => (false, fs)

/-- `get_pppd_local_ip_address` (lines 228–238). -/
def get_pppd_local_ip_address (w : Bool) (fs : FileState) :
    Except String (Scalar × FileState) :=
  match get_settings w fs with
  | Except.ok (doc, fs1) =>
    Except.ok (dget (dget doc "pppd" []) "local_ip_address"
      (dget (dget DEFAULT_SETTINGS "pppd" []) "local_ip_address"
        (Scalar.s "")), fs1)
  | Except.error e => Except.error e

/-- `update_pppd_local_ip_address` (lines 242–265). -/
def update_pppd_local_ip_address (w : Bool) (ip_addr : String)
    (fs : FileState) : Bool × FileState :=
  match get_settings w fs with
  | Except.ok (doc, fs1) =>
    (true, save_settings w
      (assign_pppd doc "local_ip_address" (Scalar.s ip_addr)) fs1)
  | Except.error _ => (false, fs)

/-- `get_pppd_remote_ip_address` (lines 269–279). -/
def get_pppd_remote_ip_address (w : Bool) (fs : FileState) :
    Except String (Scalar × FileState) :=
  match get_settings w fs with
  | Except.ok (doc, fs1) =>
    Except.ok (dget (dget doc "pppd" []) "remote_ip_address"
      (dget (dget DEFAULT_SETTINGS "pppd" []) "remote_ip_address"
        (Scalar.s "")), fs1)
  | Except.error e => Except.error e

/-- `update_pppd_remote_ip_address` (lines 283–306). -/
def update_pppd_remote_ip_address (w : Bool) (ip_addr : String)
    (fs : FileState) : Bool × FileState :=
  match get_settings w fs with
  | Except.ok (doc, fs1) =>
    (true, save_settings w
      (assign_pppd doc "remote_ip_address" (Scalar.s ip_addr)) fs1)
  | Except.error _ => (false, fs)

/-- `get_pppd_enabled` (lines 99–117): its own `try` returns the raw
stored value when both the section and the field are present, the
documented default otherwise, and `False` if anything raises. -/
def get_pppd_enabled (w : Bool) (fs : FileState) : Scalar × FileState :=
  match get_settings w fs with
  | Except.ok (doc, fs1) =>
    if dhas doc "pppd" && dhas (dget doc "pppd" []) "enabled" then
      (dget (dget doc "pppd" []) "enabled" (Scalar.b false), fs1)
    else
      (dget (dget DEFAULT_SETTINGS "pppd" []) "enabled" (Scalar.b false), fs1)
  | Except.error _ => (Scalar.b false, fs)

/-- `update_pppd_enabled` (lines 121–144). -/
def update_pppd_enabled (w : Bool) (enabled : Bool) (fs : FileState) :
    Bool × FileState :=
  match get_settings w fs with
  | Except.ok (doc, fs1) =>
    (true, save_settings w (assign_pppd doc "enabled" (Scalar.b enabled)) fs1)
  | Except.error _ => (false, fs)

/-- The names defined at module level by `app/settings.py`. -/
def settings_module_defs : List String :=
  ["get_settings", "save_settings", "get_last_used",
   "get_pppd_enabled", "update_pppd_enabled",
   "get_pppd_device", "update_pppd_device",
   "get_pppd_baudrate", "update_pppd_baudrate",
   "get_pppd_local_ip_address", "update_pppd_local_ip_address",
   "get_pppd_remote_ip_address", "update_pppd_remote_ip_address"]

/-! ## `app/main.py` — the control layer -/

/-- The `settings.*` attribute names referenced by the endpoint handlers
of `app/main.py` (`save_ppp_settings`, `get_ppp_settings`,
`start_ppp_internal`, `startup_auto_restart`,
`get_ppp_enabled_state`, `save_ppp_enabled_state`). -/
def main_settings_attrs : List String :=
  ["get_ppp_enabled", "get_ppp_device", "get_ppp_baudrate",
   "get_ppp_local_ip_address", "get_ppp_remote_ip_address",
   "update_ppp_device", "update_ppp_baudrate",
   "update_ppp_local_ip_address", "update_ppp_remote_ip_address",
   "update_ppp_enabled"]

/-- Module-attribute lookup on `app.settings`, as Python resolves
`settings.<name>`: a defined name resolves, any other raises
`AttributeError`. -/
def settings_attr (name : String) : Except String Unit :=
  if name ∈ settings_module_defs then Except.ok ()
  else Except.error ("AttributeError: " ++ name)

/-- The module-level mutable state of `app/main.py`: the `ppp_running`
flag and the `ppp_daemon` handle (lines 57–59). -/
structure AppState where
  ppp_running : Bool
  ppp_daemon : Option DaemonState
  deriving Repr

/-- The initial module state: `ppp_running = False`,
`ppp_daemon = None` (main.py lines 58–59). -/
def initApp : AppState := { ppp_running := false, ppp_daemon := none }

/-- `start_ppp_internal` (main.py lines 85–124): inside `try`, sets
`ppp_running = True`, then evaluates `settings.get_ppp_device()`.  The
settings module defines no `get_ppp_device` (only `get_pppd_device`), so
the lookup raises `AttributeError`, which the `except` clause swallows:
the daemon is neither constructed nor started, and every statement after
that lookup is dead code (the `Except.ok` branch below is unreachable,
see `settings_attr`; the value placed there is irrelevant). -/
def start_ppp_internal (st : AppState) : AppState :=
  let st1 : AppState := { st with ppp_running := true }
  match settings_attr "get_ppp_device" with
  | Except.error _ => st1
  | Except.ok _ => st1

/-- `stop_ppp` (main.py lines 271–285): sets `ppp_running = False` and
returns a success response; it does **not** signal the daemon or touch
`ppp_daemon`. -/
def stop_ppp (st : AppState) : AppState :=
  { st with ppp_running := false }

/-- The JSON body returned by `get_ppp_status`, restricted to its
boolean fields. -/
structure StatusResponse where
  success : Bool
  running : Bool
  deriving DecidableEq, Repr

/-- `get_ppp_status` (main.py lines 221–234): returns
`running = ppp_running`, the module-level flag, with `success = True`. -/
def get_ppp_status (st : AppState) : StatusResponse :=
  { success := true, running := st.ppp_running }

/-- Whether the supervised OS process is live in the supervisor's own
state: a live handle held by the reconciliation loop of some
constructed daemon. -/
def daemonHasLiveProcess (st : AppState) : Bool :=
  match st.ppp_daemon with
  | none => false
  | some dst =>
    match dst.pppd_process with
    | none => false
    | some p => p.alive

/-- The per-field update sequence that `save_ppp_settings` (main.py
lines 158–190) performs, written with the names `app/settings.py`
actually defines; the endpoint as written calls `settings.update_ppp_*`,
which do not exist (see the C7 theorem). -/
def save_ppp_settings_sequence (w : Bool) (d : String) (b : Int)
    (l r : String) (fs : FileState) : Bool × FileState :=
  let (ok1, fs1) := update_pppd_device w d fs
  let (ok2, fs2) := update_pppd_baudrate w b fs1
  let (ok3, fs3) := update_pppd_local_ip_address w l fs2
  let (ok4, fs4) := update_pppd_remote_ip_address w r fs3
  (ok1 && ok2 && ok3 && ok4, fs4)

/-! ## Theorems about the process supervisor -/

/-- C1 (counterexample): in the state where the supervised process has
exited on its own (`deadProc.alive = false`) while `is_enabled` is still
true, the next tick leaves the state completely unchanged: the dead
handle is **not** cleared, `is_running` stays true and no new process is
launched — so there is no auto-relaunch after a crash. -/
theorem crash_not_relaunched_cex :
    tickBody env0 sCrashed = Except.ok sCrashed ∧
    sCrashed.is_enabled = true ∧
    sCrashed.is_running = true ∧
    sCrashed.pppd_process = some deadProc ∧
    deadProc.alive = false :=
  ⟨rfl, rfl, rfl, rfl, rfl⟩

/-- C1 (amended): when the supervised process has exited on its own while
`DesiredState.enabled` remains true, the next tick retains the dead
handle (at most marking it dead via `poll`), keeps `is_running` true, and
launches no new process: the daemon is **not** auto-relaunched after a
crash. -/
theorem crash_keeps_dead_handle (env : TickEnv) (s : DaemonState) (p : Proc)
    (hen : s.is_enabled = true) (hrun : s.is_running = true)
    (hp : s.pppd_process = some p) :
    tickBody env s =
      Except.ok
        { s with
          pppd_process := some (if env.extExit then ⟨p.args, false⟩ else p) } := by
  obtain ⟨c, en, ds, ir, pp⟩ := s
  obtain ⟨sf, ee⟩ := env
  simp only at hen hrun hp
  subst hen hrun hp
  cases ee <;> rfl

/-- Witness for `crash_keeps_dead_handle` at the concrete crashed
state. -/
theorem crash_keeps_dead_handle_witness :
    tickBody env0 sCrashed =
      Except.ok
        { sCrashed with
          pppd_process :=
            some (if env0.extExit then ⟨deadProc.args, false⟩ else deadProc) } :=
  crash_keeps_dead_handle env0 sCrashed deadProc rfl rfl rfl

/-- C2 (counterexample): in an enabled, idle state, a spawn failure
(`subprocess.Popen` raising) is **not** caught within the tick: the
exception escapes the loop body, and the reconciliation loop itself dies
with it — the background task is terminated by the exception rather than
by cooperative shutdown, and no retry on a subsequent tick ever
happens. -/
theorem spawn_failure_uncaught_cex :
    tickBody { spawnFails := true, extExit := false } sIdleEnabled =
      Except.error () ∧
    runLoop { spawnFails := true, extExit := false } 5 sIdleEnabled =
      Except.error () :=
  ⟨rfl, rfl⟩

/-- C2 (amended): if launching the OS process fails in a tick, the
exception propagates out of the loop body uncaught and terminates the
background task (the handle is still null at that point); there is no
per-tick retry, because the loop is dead. -/
theorem spawn_failure_kills_loop (ee : Bool) (fuel : Nat) (s : DaemonState)
    (hen : s.is_enabled = true) (hrun : s.is_running = false)
    (hp : s.pppd_process = none) :
    runLoop { spawnFails := true, extExit := ee } (fuel + 1) s =
      Except.error () := by
  obtain ⟨c, en, ds, ir, pp⟩ := s
  simp only at hen hrun hp
  subst hen hrun hp
  rfl

/-- Witness for `spawn_failure_kills_loop` at the concrete idle enabled
state. -/
theorem spawn_failure_kills_loop_witness :
    runLoop { spawnFails := true, extExit := false } 1 sIdleEnabled =
      Except.error () :=
  spawn_failure_kills_loop false 0 sIdleEnabled rfl rfl rfl

/-- C5: from any state satisfying the loop invariant, once `shutdown()`
has set `is_enabled := false` and `do_shutdown := true`, the
reconciliation loop exits within one further iteration (so
`thread.join()` returns), the final state holds no process handle and is
not running, and repeating the flag writes of `shutdown()` is a no-op. -/
theorem shutdown_terminates_loop (env : TickEnv) (s : DaemonState)
    (hinv : runInv s) :
    (∃ s', runLoop env 1 (shutdownFlags s) = Except.ok (some s') ∧
      s'.pppd_process = none ∧ s'.is_running = false) ∧
    shutdownFlags (shutdownFlags s) = shutdownFlags s := by
  obtain ⟨c, en, ds, ir, pp⟩ := s
  obtain ⟨sf, ee⟩ := env
  unfold runInv at hinv
  simp only at hinv
  subst hinv
  cases pp <;> exact ⟨⟨_, rfl, rfl, rfl⟩, rfl⟩

/-- Witness for `shutdown_terminates_loop` at the concrete running
state. -/
theorem shutdown_terminates_loop_witness :
    (∃ s', runLoop env0 1 (shutdownFlags sRunning) = Except.ok (some s') ∧
      s'.pppd_process = none ∧ s'.is_running = false) ∧
    shutdownFlags (shutdownFlags sRunning) = shutdownFlags sRunning :=
  shutdown_terminates_loop env0 sRunning rfl

/-- C8: whenever the reconciliation loop launches the OS process (enabled,
not running, no handle, spawn succeeds), the spawned process's argument
list is exactly `pppdArgs` of the current configuration: the executable,
positional device, baud rate and `local:remote` pair, followed by the
fixed mode-flag literals, which as a set are exactly the claimed flags
no-auth, debug, foreground (`nodetach`), hardware flow control
(`crtscts`), local IP assignment, proxy-ARP and kernel route tuning. -/
theorem spawn_uses_documented_args (env : TickEnv) (s : DaemonState)
    (hen : s.is_enabled = true) (hrun : s.is_running = false)
    (hp : s.pppd_process = none) (hok : env.spawnFails = false) :
    (∃ p : Proc, ∃ s' : DaemonState,
        tickBody env s = Except.ok s' ∧ s'.pppd_process = some p ∧
        s'.is_running = true ∧ p.args = pppdArgs s.cfg) ∧
    pppdArgs s.cfg = PPPD_EXECUTABLE :: s.cfg.device ::
        toString s.cfg.baudrate ::
        (s.cfg.localAddr ++ ":" ++ s.cfg.remoteAddr) :: pppdModeFlags ∧
    (∀ f, f ∈ pppdModeFlags ↔
        f ∈ ["noauth", "debug", "nodetach", "crtscts", "local",
             "proxyarp", "ktune"]) := by
  obtain ⟨c, en, ds, ir, pp⟩ := s
  obtain ⟨sf, ee⟩ := env
  simp only at hen hrun hp hok
  subst hen hrun hp hok
  refine ⟨?_, rfl, ?_⟩
  · cases ee
    · exact ⟨⟨pppdArgs c, true⟩, _, rfl, rfl, rfl, rfl⟩
    · exact ⟨⟨pppdArgs c, false⟩, _, rfl, rfl, rfl, rfl⟩
  · intro f
    simp only [pppdModeFlags, List.mem_cons, List.not_mem_nil, or_false]
    tauto

/-- Witness for `spawn_uses_documented_args` at the concrete idle enabled
state. -/
theorem spawn_uses_documented_args_witness :
    (∃ p : Proc, ∃ s' : DaemonState,
        tickBody env0 sIdleEnabled = Except.ok s' ∧
        s'.pppd_process = some p ∧
        s'.is_running = true ∧ p.args = pppdArgs sIdleEnabled.cfg) ∧
    pppdArgs sIdleEnabled.cfg = PPPD_EXECUTABLE ::
        sIdleEnabled.cfg.device :: toString sIdleEnabled.cfg.baudrate ::
        (sIdleEnabled.cfg.localAddr ++ ":" ++ sIdleEnabled.cfg.remoteAddr) ::
        pppdModeFlags ∧
    (∀ f, f ∈ pppdModeFlags ↔
        f ∈ ["noauth", "debug", "nodetach", "crtscts", "local",
             "proxyarp", "ktune"]) :=
  spawn_uses_documented_args env0 sIdleEnabled rfl rfl rfl rfl

/-- C10: the loop invariant "`is_running` is true iff `pppd_process` is
non-null" holds in the initial state of `child_task` and is preserved by
every loop iteration that completes normally, in every environment. -/
theorem running_iff_handle (env : TickEnv) (s : DaemonState)
    (hinv : runInv s) :
    (∀ c, runInv (initState c)) ∧
    (∀ s', tickBody env s = Except.ok s' → runInv s') := by
  refine ⟨fun c => rfl, ?_⟩
  intro s' hstep
  obtain ⟨c, en, ds, ir, pp⟩ := s
  obtain ⟨sf, ee⟩ := env
  unfold runInv at hinv
  simp only at hinv
  subst hinv
  cases pp <;> cases en <;> cases sf <;> cases ee <;> cases hstep <;> rfl

/-- Witness for `running_iff_handle` at the concrete idle enabled
state. -/
theorem running_iff_handle_witness :
    (∀ c, runInv (initState c)) ∧
    (∀ s', tickBody env0 sIdleEnabled = Except.ok s' → runInv s') :=
  running_iff_handle env0 sIdleEnabled rfl

/-! ## Theorems about the settings store and the control layer -/

/-- Reading a key just written by `dset` returns the written value. -/
theorem dget_dset_self {α : Type} (m : List (String × α)) (k : String)
    (v d : α) : dget (dset m k v) k d = v := by
  induction m with
  | nil => simp [dset, dget]
  | cons kv m ih =>
    by_cases h : kv.1 = k
    · simp [dset, dget, h]
    · simp [dset, dget, h, ih]

/-- Writing one key leaves the lookup of any other key unchanged. -/
theorem dget_dset_ne {α : Type} (m : List (String × α)) (k k' : String)
    (v : α) (d : α) (h : k ≠ k') : dget (dset m k v) k' d = dget m k' d := by
  induction m with
  | nil => simp [dset, dget, h]
  | cons kv m ih =>
    by_cases hk : kv.1 = k
    · simp [dset, dget, hk, h]
    · by_cases hk' : kv.1 = k'
      · simp [dset, dget, hk, hk', Ne.symm h]
      · simp [dset, dget, hk, hk', ih]

/-- Looking up an absent key returns the default. -/
theorem dget_of_dhas_false {α : Type} (m : List (String × α)) (k : String)
    (d : α) (h : dhas m k = false) : dget m k d = d := by
  induction m with
  | nil => rfl
  | cons kv m ih =>
    simp [dhas] at h
    simp [dget, h.1, ih h.2]

/-- After `assign_pppd`, the `pppd` section is the previous section (or
an empty one, when the section was absent) with the one field written. -/
theorem dget_assign_pppd (doc : SettingsDoc) (f : String) (v : Scalar)
    (d : Sect) :
    dget (assign_pppd doc f v) "pppd" d = dset (dget doc "pppd" []) f v := by
  unfold assign_pppd
  by_cases h : dhas doc "pppd" = true
  · simp [h, dget_dset_self]
  · have h' : dhas doc "pppd" = false := by
      cases hd : dhas doc "pppd" <;> simp_all
    simp [h', dget_dset_self, dget_of_dhas_false doc "pppd" ([] : Sect) h']

/-- After the four per-field assignments, the `pppd` section is the
original section with exactly the four fields written in order. -/
theorem roundtrip_section (doc : SettingsDoc) (dv : String) (b : Int)
    (l r : String) :
    dget (assign_pppd (assign_pppd (assign_pppd (assign_pppd doc
        "device" (Scalar.s dv)) "baudrate" (Scalar.i b))
        "local_ip_address" (Scalar.s l)) "remote_ip_address" (Scalar.s r))
      "pppd" [] =
      dset (dset (dset (dset (dget doc "pppd" []) "device" (Scalar.s dv))
        "baudrate" (Scalar.i b)) "local_ip_address" (Scalar.s l))
        "remote_ip_address" (Scalar.s r) := by
  rw [dget_assign_pppd, dget_assign_pppd, dget_assign_pppd, dget_assign_pppd]

/-- `get_pppd_device` on a parsable file, unfolded. -/
theorem get_pppd_device_valid (w : Bool) (doc : SettingsDoc) :
    get_pppd_device w (FileState.valid doc) =
      Except.ok (dget (dget doc "pppd" []) "device"
        (dget (dget DEFAULT_SETTINGS "pppd" []) "device" (Scalar.s "")),
        FileState.valid doc) := rfl

/-- `get_pppd_baudrate` on a parsable file, unfolded. -/
theorem get_pppd_baudrate_valid (w : Bool) (doc : SettingsDoc) :
    get_pppd_baudrate w (FileState.valid doc) =
      Except.ok (dget (dget doc "pppd" []) "baudrate"
        (dget (dget DEFAULT_SETTINGS "pppd" []) "baudrate" (Scalar.s "")),
        FileState.valid doc) := rfl

/-- `get_pppd_local_ip_address` on a parsable file, unfolded. -/
theorem get_pppd_local_ip_address_valid (w : Bool) (doc : SettingsDoc) :
    get_pppd_local_ip_address w (FileState.valid doc) =
      Except.ok (dget (dget doc "pppd" []) "local_ip_address"
        (dget (dget DEFAULT_SETTINGS "pppd" []) "local_ip_address"
          (Scalar.s "")),
        FileState.valid doc) := rfl

/-- `get_pppd_remote_ip_address` on a parsable file, unfolded. -/
theorem get_pppd_remote_ip_address_valid (w : Bool) (doc : SettingsDoc) :
    get_pppd_remote_ip_address w (FileState.valid doc) =
      Except.ok (dget (dget doc "pppd" []) "remote_ip_address"
        (dget (dget DEFAULT_SETTINGS "pppd" []) "remote_ip_address"
          (Scalar.s "")),
        FileState.valid doc) := rfl

/-- The settings-layer round trip from a parsable starting file. -/
theorem settings_roundtrip_valid (dv : String) (b : Int) (l r : String)
    (doc0 : SettingsDoc) :
    ∃ D : SettingsDoc,
      save_ppp_settings_sequence true dv b l r (FileState.valid doc0) =
        (true, FileState.valid D) ∧
      get_pppd_device true (FileState.valid D) =
        Except.ok (Scalar.s dv, FileState.valid D) ∧
      get_pppd_baudrate true (FileState.valid D) =
        Except.ok (Scalar.i b, FileState.valid D) ∧
      get_pppd_local_ip_address true (FileState.valid D) =
        Except.ok (Scalar.s l, FileState.valid D) ∧
      get_pppd_remote_ip_address true (FileState.valid D) =
        Except.ok (Scalar.s r, FileState.valid D) := by
  refine ⟨assign_pppd (assign_pppd (assign_pppd (assign_pppd doc0
    "device" (Scalar.s dv)) "baudrate" (Scalar.i b))
    "local_ip_address" (Scalar.s l)) "remote_ip_address" (Scalar.s r),
    rfl, ?_, ?_, ?_, ?_⟩
  · rw [get_pppd_device_valid, roundtrip_section,
      dget_dset_ne _ _ _ _ _ (by decide), dget_dset_ne _ _ _ _ _ (by decide),
      dget_dset_ne _ _ _ _ _ (by decide), dget_dset_self]
  · rw [get_pppd_baudrate_valid, roundtrip_section,
      dget_dset_ne _ _ _ _ _ (by decide), dget_dset_ne _ _ _ _ _ (by decide),
      dget_dset_self]
  · rw [get_pppd_local_ip_address_valid, roundtrip_section,
      dget_dset_ne _ _ _ _ _ (by decide), dget_dset_self]
  · rw [get_pppd_remote_ip_address_valid, roundtrip_section, dget_dset_self]

/-- The settings-layer round trip from any starting file state: saving
the four fields (with working disk writes) and reading them back returns
exactly the written values. -/
theorem settings_roundtrip (dv : String) (b : Int) (l r : String)
    (fs : FileState) :
    ∃ fs4 : FileState,
      save_ppp_settings_sequence true dv b l r fs = (true, fs4) ∧
      get_pppd_device true fs4 = Except.ok (Scalar.s dv, fs4) ∧
      get_pppd_baudrate true fs4 = Except.ok (Scalar.i b, fs4) ∧
      get_pppd_local_ip_address true fs4 = Except.ok (Scalar.s l, fs4) ∧
      get_pppd_remote_ip_address true fs4 = Except.ok (Scalar.s r, fs4) := by
  cases fs with
  | valid doc0 =>
    obtain ⟨D, h1, h2, h3, h4, h5⟩ := settings_roundtrip_valid dv b l r doc0
    exact ⟨FileState.valid D, h1, h2, h3, h4, h5⟩
  | absent =>
    obtain ⟨D, h1, h2, h3, h4, h5⟩ :=
      settings_roundtrip_valid dv b l r DEFAULT_SETTINGS
    exact ⟨FileState.valid D, h1, h2, h3, h4, h5⟩
  | corrupt =>
    obtain ⟨D, h1, h2, h3, h4, h5⟩ :=
      settings_roundtrip_valid dv b l r DEFAULT_SETTINGS
    exact ⟨FileState.valid D, h1, h2, h3, h4, h5⟩
  | ioError =>
    obtain ⟨D, h1, h2, h3, h4, h5⟩ :=
      settings_roundtrip_valid dv b l r DEFAULT_SETTINGS
    exact ⟨FileState.valid D, h1, h2, h3, h4, h5⟩

/-- C3 (counterexample): with the disk write failing, the per-field
update `update_pppd_device` still reports success (`True`) to its
caller — it does not report failure. -/
theorem update_reports_success_on_write_failure_cex :
    update_pppd_device false "/dev/ttyUSB0"
      (FileState.valid DEFAULT_SETTINGS) =
      (true, FileState.valid DEFAULT_SETTINGS) := rfl

/-- C3 (amended): when the disk write fails, every per-field update
swallows the failure inside `save_settings` and still returns `True` to
its caller; the persisted file state is unaffected by the failed
write. -/
theorem update_swallows_write_failure (v : String) (b : Int) (e : Bool)
    (fs : FileState) :
    update_pppd_device false v fs = (true, fs) ∧
    update_pppd_baudrate false b fs = (true, fs) ∧
    update_pppd_local_ip_address false v fs = (true, fs) ∧
    update_pppd_remote_ip_address false v fs = (true, fs) ∧
    update_pppd_enabled false e fs = (true, fs) := by
  cases fs <;> exact ⟨rfl, rfl, rfl, rfl, rfl⟩

/-- C6: `get_settings` never raises — for every file condition and write
outcome it returns `Except.ok` — and when the backing file is absent,
corrupt or unreadable it returns the default document after attempting
to persist it; the attempt leaves a valid default file whenever the
write succeeds. -/
theorem get_settings_total_with_defaults (w : Bool) (fs : FileState)
    (h : fs = FileState.absent ∨ fs = FileState.corrupt ∨
      fs = FileState.ioError) :
    get_settings w fs =
      Except.ok (DEFAULT_SETTINGS, save_settings w DEFAULT_SETTINGS fs) ∧
    save_settings true DEFAULT_SETTINGS fs =
      FileState.valid DEFAULT_SETTINGS ∧
    (∀ w' fs', ∃ p, get_settings w' fs' = Except.ok p) := by
  refine ⟨?_, ?_, fun w' fs' => ?_⟩
  · rcases h with h | h | h <;> subst h <;> rfl
  · rcases h with h | h | h <;> subst h <;> rfl
  · cases fs' <;> exact ⟨_, rfl⟩

/-- Witness for `get_settings_total_with_defaults` at a corrupt file. -/
theorem get_settings_total_with_defaults_witness :
    get_settings true FileState.corrupt =
      Except.ok (DEFAULT_SETTINGS,
        save_settings true DEFAULT_SETTINGS FileState.corrupt) ∧
    save_settings true DEFAULT_SETTINGS FileState.corrupt =
      FileState.valid DEFAULT_SETTINGS ∧
    (∀ w' fs', ∃ p, get_settings w' fs' = Except.ok p) :=
  get_settings_total_with_defaults true FileState.corrupt
    (Or.inr (Or.inl rfl))

/-- C7 (code bug): the settings layer round-trips — performing the four
per-field updates with (d, b, l, r) and reading the four getters
returns exactly those values — but the `save_ppp_settings` endpoint in
`app/main.py` calls `settings.update_ppp_device` (and the settings-get
endpoint `settings.get_ppp_device`), names the settings module does not
define (it defines `update_pppd_device` and `get_pppd_device`), so the
endpoints raise `AttributeError` instead of performing the round
trip. -/
theorem save_settings_roundtrip_and_name_mismatch :
    (∃ fs4 : FileState,
      save_ppp_settings_sequence true "/dev/ttyUSB0" 115200 "10.0.0.1"
          "10.0.0.2" (FileState.valid DEFAULT_SETTINGS) = (true, fs4) ∧
      get_pppd_device true fs4 = Except.ok (Scalar.s "/dev/ttyUSB0", fs4) ∧
      get_pppd_baudrate true fs4 = Except.ok (Scalar.i 115200, fs4) ∧
      get_pppd_local_ip_address true fs4 =
        Except.ok (Scalar.s "10.0.0.1", fs4) ∧
      get_pppd_remote_ip_address true fs4 =
        Except.ok (Scalar.s "10.0.0.2", fs4)) ∧
    "update_ppp_device" ∈ main_settings_attrs ∧
    settings_attr "update_ppp_device" =
      Except.error "AttributeError: update_ppp_device" ∧
    settings_attr "get_ppp_device" =
      Except.error "AttributeError: get_ppp_device" :=
  ⟨settings_roundtrip "/dev/ttyUSB0" 115200 "10.0.0.1" "10.0.0.2"
      (FileState.valid DEFAULT_SETTINGS),
    by decide, rfl, rfl⟩

/-- C9 (code bug): on a document missing the `pppd` section, the
per-field getters resolve device, the two addresses and enabled to the
documented defaults, but `get_pppd_baudrate` resolves to the **string**
`"921600"`, not the positive integer 921600 that its own docstring and
the spec document. -/
theorem defaults_resolution_baudrate_string :
    get_pppd_device true (FileState.valid []) =
      Except.ok (Scalar.s "/dev/ttyS0", FileState.valid []) ∧
    get_pppd_baudrate true (FileState.valid []) =
      Except.ok (Scalar.s "921600", FileState.valid []) ∧
    Scalar.s "921600" ≠ Scalar.i 921600 ∧
    get_pppd_local_ip_address true (FileState.valid []) =
      Except.ok (Scalar.s "192.168.1.205", FileState.valid []) ∧
    get_pppd_remote_ip_address true (FileState.valid []) =
      Except.ok (Scalar.s "192.168.1.200", FileState.valid []) ∧
    get_pppd_enabled true (FileState.valid []) =
      (Scalar.b false, FileState.valid []) :=
  ⟨rfl, rfl, by decide, rfl, rfl, rfl⟩

/-- C4 (counterexample): from the initial module state, a start request
runs `start_ppp_internal`, which sets `ppp_running = True` and then
fails on the nonexistent `settings.get_ppp_device` before constructing
any daemon.  In the resulting reachable state the status endpoint
reports `running = true` while no supervised process is live; moreover
the `PPPDaemon` class exposes no `isRunning` method at all. -/
theorem status_not_supervisor_view_cex :
    (get_ppp_status (start_ppp_internal initApp)).running = true ∧
    daemonHasLiveProcess (start_ppp_internal initApp) = false ∧
    "isRunning" ∉ PPPDaemon_methods :=
  ⟨rfl, rfl, by decide⟩

/-- C4 (amended): the running field of the status endpoint equals the
module-level `ppp_running` flag, which the start and stop request paths
toggle without consulting or altering the supervisor: neither
`start_ppp_internal` (which dies on the missing settings attribute) nor
`stop_ppp` touches `ppp_daemon`, and the `PPPDaemon` class defines no
`isRunning` operation. -/
theorem status_reads_module_flag (st : AppState) :
    (get_ppp_status st).running = st.ppp_running ∧
    (stop_ppp st).ppp_daemon = st.ppp_daemon ∧
    (start_ppp_internal st).ppp_daemon = st.ppp_daemon ∧
    (start_ppp_internal st).ppp_running = true ∧
    (stop_ppp st).ppp_running = false ∧
    "isRunning" ∉ PPPDaemon_methods :=
  ⟨rfl, rfl, rfl, rfl, rfl, by decide⟩

end PPP
